import Mathlib

/-!
Verification development for the clinic mobile client core: the session
manager (`AuthProvider` with `login`, `register`, `logout`, `loadStoredAuth`,
`clearAuth`) and the HTTP client core (`ApiClient` with `getAuthHeaders`,
`handleResponse` and GET URL construction).  Asynchronous effects are made
explicit: each operation is a pure state transformer on a `World` (credential
store plus in-memory auth state), parameterised by an environment recording
the outcome of every network call and of every fallible credential-store
operation the code performs.
-/

/-- Modelled from the spec: the Secure Credential Store is not under `src/`
(only its callers are).  Spec contract: `get(key) -> value|absent`,
`set(key, value)`, `delete(key)`, small key/value entries.  Modelled as an
association list keyed by strings. -/
structure Store where
  entries : List (String × String)
deriving DecidableEq, Repr

/-- Modelled from the spec: `get(key) -> value|absent` — the value of the
first entry with the given key, absent otherwise. -/
def Store.get (s : Store) (k : String) : Option String :=
  (s.entries.find? (fun e => e.1 == k)).map (fun e => e.2)

/-- Modelled from the spec: `set(key, value)` stores the value under the key,
replacing any previous entry with that key. -/
def Store.set (s : Store) (k v : String) : Store :=
  ⟨(k, v) :: s.entries.filter (fun e => !(e.1 == k))⟩

/-- Modelled from the spec: `delete(key)` removes any entry with that key. -/
def Store.del (s : Store) (k : String) : Store :=
  ⟨s.entries.filter (fun e => !(e.1 == k))⟩

/-- JavaScript truthiness of a `string | null` value: `null` and the empty
string are falsy, every other string is truthy. -/
def truthy : Option String → Bool
  | none => false
  | some s => !(s == "")

/-- The user record is opaque to the client core; it is carried as its
serialized JSON text. -/
structure User where
  raw : String
deriving DecidableEq, Repr

/-- `JSON.stringify(user)` for the opaque pass-through user record. -/
def stringifyUser (u : User) : String := u.raw

/-- In-memory auth state of the session manager:
`{ user, token, isAuthenticated }`. -/
structure AuthState where
  user : Option User
  token : Option String
  isAuthenticated : Bool
deriving DecidableEq, Repr

/-- The initial state passed to `useState`:
`user: null, token: null, isAuthenticated: false`. -/
def initialAuthState : AuthState := ⟨none, none, false⟩

/-- The world a session operation acts on: the credential store and the
in-memory auth state. -/
structure World where
  store : Store
  auth : AuthState
deriving DecidableEq, Repr

/-- Outcome of an awaited network call: the promise resolved with a value, or
it rejected / threw. -/
inductive NetResult (α : Type) where
  | ok (v : α)
  | err
deriving DecidableEq, Repr

/-- The `ApiResponse` envelope: success flag, optional data, optional
message, optional error.  (Pagination metadata is irrelevant to the claims
and omitted; it is never inspected by the session manager.) -/
structure Envelope (α : Type) where
  success : Bool
  data : Option α
  message : Option String
  error : Option String
deriving DecidableEq, Repr

/-- Payload of a successful `auth.login` / `auth.register` response:
`{ user, token }`. -/
structure LoginData where
  user : User
  token : String
deriving DecidableEq, Repr

/-- Environment for one `login` or `register` call: the outcome of the
network call and of the two credential-store writes the success path
performs (a `false` flag means that write throws). -/
structure SessionOpEnv where
  netResult : NetResult (Envelope LoginData)
  setTokenOk : Bool
  setUserOk : Bool
deriving DecidableEq, Repr

/-- `clearAuth`: try to delete `auth_token` then `user_data` (a throw from
either delete is caught and only logged, so a throw from the first skips the
second), then unconditionally reset the in-memory state. -/
def clearAuth (delTokenOk delUserOk : Bool) (w : World) : World :=
  let s1 := if delTokenOk then Store.del w.store "auth_token" else w.store
  let s2 := if delTokenOk && delUserOk then Store.del s1 "user_data" else s1
  ⟨s2, initialAuthState⟩

/-- `login(email, password)`: await `authApi.login`; if the envelope has
`success` truthy and `data` present, write the token and the stringified
user to the store, set the auth state and return `true`; otherwise return
`false`.  Any throw (network rejection or store-write failure) is caught and
yields `false`, keeping whatever state the call reached. -/
def login (env : SessionOpEnv) (w : World) : World × Bool :=
  match env.netResult with
  | .err => (w, false)
  | .ok response =>
    match response.success, response.data with
    | true, some d =>
      if env.setTokenOk then
        let s1 := Store.set w.store "auth_token" d.token
        if env.setUserOk then
          let s2 := Store.set s1 "user_data" (stringifyUser d.user)
          (⟨s2, ⟨some d.user, some d.token, true⟩⟩, true)
        else (⟨s1, w.auth⟩, false)
      else (w, false)
    | _, _ => (w, false)

/-- `register(userData)`: identical body to `login` with `authApi.register`
as the network call. -/
def register (env : SessionOpEnv) (w : World) : World × Bool :=
  match env.netResult with
  | .err => (w, false)
  | .ok response =>
    match response.success, response.data with
    | true, some d =>
      if env.setTokenOk then
        let s1 := Store.set w.store "auth_token" d.token
        if env.setUserOk then
          let s2 := Store.set s1 "user_data" (stringifyUser d.user)
          (⟨s2, ⟨some d.user, some d.token, true⟩⟩, true)
        else (⟨s1, w.auth⟩, false)
      else (w, false)
    | _, _ => (w, false)

/-- Environment for one `logout` call: whether `authApi.logout` resolved
(its outcome is caught and ignored), and the outcomes of the two store
deletes inside `clearAuth`. -/
structure LogoutEnv where
  netOk : Bool
  delTokenOk : Bool
  delUserOk : Bool
deriving DecidableEq, Repr

/-- `logout()`: `try { await authApi.logout() } catch { log } finally
{ await clearAuth() }` — the network outcome never affects the result. -/
def logout (env : LogoutEnv) (w : World) : World :=
  clearAuth env.delTokenOk env.delUserOk w

/-- Environment for one hydration run (`loadStoredAuth`): outcomes of the two
store reads, of `JSON.parse` on the stored user data, of the
`authApi.getCurrentUser` validation call, and of the two deletes used if
`clearAuth` runs. -/
structure HydrateEnv where
  readTokenOk : Bool
  readUserOk : Bool
  parseOk : Bool
  netResult : NetResult (Envelope User)
  delTokenOk : Bool
  delUserOk : Bool
deriving DecidableEq, Repr

/-- `loadStoredAuth()`: read `auth_token` and `user_data`; if both are truthy,
parse the user and validate with `authApi.getCurrentUser`; on envelope
success-with-data set the authenticated state (server user, stored token),
on any other outcome `clearAuth`; a throw from a read or from `JSON.parse`
lands in the outer catch, which also runs `clearAuth`; if either value is
falsy the body is skipped.  The second component counts network calls. -/
def loadStoredAuth (env : HydrateEnv) (w : World) : World × Nat :=
  if !env.readTokenOk then (clearAuth env.delTokenOk env.delUserOk w, 0)
  else
    let token := Store.get w.store "auth_token"
    if !env.readUserOk then (clearAuth env.delTokenOk env.delUserOk w, 0)
    else
      let userData := Store.get w.store "user_data"
      if truthy token && truthy userData then
        if !env.parseOk then (clearAuth env.delTokenOk env.delUserOk w, 0)
        else
          match env.netResult with
          | .err => (clearAuth env.delTokenOk env.delUserOk w, 1)
          | .ok response =>
            match response.success, response.data with
            | true, some u => (⟨w.store, ⟨some u, token, true⟩⟩, 1)
            | _, _ => (clearAuth env.delTokenOk env.delUserOk w, 1)
      else (w, 0)

/-- `getAuthHeaders()`: always a JSON content-type header; an
`Authorization: Bearer` header exactly when the stored token is truthy. -/
def getAuthHeaders (store : Store) : List (String × String) :=
  let token := Store.get store "auth_token"
  if truthy token then
    [("Content-Type", "application/json"),
     ("Authorization", "Bearer " ++ token.getD "")]
  else
    [("Content-Type", "application/json")]

/-- `pat` occurs at the head of `l`. -/
def leadsWith : List Char → List Char → Bool
  | [], _ => true
  | _ :: _, [] => false
  | a :: as, b :: bs => a == b && leadsWith as bs

/-- `pat` occurs somewhere in `l` (contiguously). -/
def hasSub (pat : List Char) : List Char → Bool
  | [] => leadsWith pat []
  | c :: t => leadsWith pat (c :: t) || hasSub pat t

/-- JavaScript `s.includes(pat)` on strings. -/
def strIncludes (s pat : String) : Bool := hasSub pat.data s.data

/-- `contentType && contentType.includes('application/json')`: a `null` or
empty content-type header is falsy. -/
def isJsonContentType : Option String → Bool
  | none => false
  | some s => truthy (some s) && strIncludes s "application/json"

/-- JavaScript `a || b` where `a` is a possibly-absent string: falls through
on `null`/`undefined` and on the empty string. -/
def jsOrString (a : Option String) (b : String) : String :=
  match a with
  | some s => if s == "" then b else s
  | none => b

/-- A transport response as `handleResponse` sees it: the declared
content-type header, the numeric status, and the result of `response.json()`
(`none` models a body that fails to parse as JSON). -/
structure HttpResponse (α : Type) where
  contentType : Option String
  status : Nat
  jsonBody : Option (Envelope α)
deriving DecidableEq, Repr

/-- `response.ok`: transport status in the 2xx range. -/
def respOk {α : Type} (r : HttpResponse α) : Bool :=
  200 ≤ r.status && r.status < 300

/-- Result of `handleResponse`: the promise resolved with an envelope, or
rejected with an error message. -/
inductive HandleResult (α : Type) where
  | resolved (e : Envelope α)
  | rejected (msg : String)
deriving DecidableEq, Repr

/-- `handleResponse(response)`: if the content type declares JSON, parse the
body (a parse failure rejects), throw the parsed `message || error ||
'Request failed'` on a non-ok status, else resolve with the parsed envelope
unmodified.  If not JSON: throw `Request failed with status <n>` on a non-ok
status, else resolve with a synthetic `success: true, data: null` envelope. -/
def handleResponse {α : Type} (r : HttpResponse α) : HandleResult α :=
  if isJsonContentType r.contentType then
    match r.jsonBody with
    | none => .rejected "JSON parse error"
    | some data =>
      if !(respOk r) then
        .rejected (jsOrString data.message (jsOrString data.error "Request failed"))
      else
        .resolved data
  else
    if !(respOk r) then
      .rejected ("Request failed with status " ++ toString r.status)
    else
      .resolved ⟨true, none, none, none⟩

/-- Renders accumulated search params as the query-string suffix of
`url.toString()`: empty for no params, `?k1=v1&k2=v2...` otherwise. -/
def renderQuery (ps : List (String × String)) : String :=
  match ps with
  | [] => ""
  | _ => "?" ++ String.intercalate "&" (ps.map (fun p => p.1 ++ "=" ++ p.2))

/-- The `Object.entries(params).forEach(([key, value]) =>
url.searchParams.append(key, value))` loop: appends each pair in turn to the
(initially empty) search-param list. -/
def appendParams (ps : List (String × String)) : List (String × String) :=
  ps.foldl (fun acc p => acc ++ [p]) []

/-- URL construction of `ApiClient.get`: `new URL(baseURL + endpoint)`, the
append loop over the params, then `url.toString()`. -/
def buildGetUrl (baseURL endpoint : String) (params : List (String × String)) : String :=
  baseURL ++ endpoint ++ renderQuery (appendParams params)

/-- Both credential entries present, or both absent. -/
def storeInSync (s : Store) : Bool :=
  (Store.get s "auth_token").isSome == (Store.get s "user_data").isSome

/-- The `auth.login` envelope is a failure: `success` false or `data`
absent (a resolved call only). -/
def envelopeFailed (n : NetResult (Envelope LoginData)) : Bool :=
  match n with
  | .err => false
  | .ok r => !(r.success && r.data.isSome)

/-- Some error is thrown during `login`: the network call rejects, or the
success path reaches a store write that throws. -/
def loginThrew (env : SessionOpEnv) : Bool :=
  match env.netResult with
  | .err => true
  | .ok r => (r.success && r.data.isSome) && !(env.setTokenOk && env.setUserOk)

/-- The `getCurrentUser` validation fails: the call throws, or the envelope
lacks `success` with `data`. -/
def validationFails (n : NetResult (Envelope User)) : Bool :=
  match n with
  | .err => true
  | .ok r => !(r.success && r.data.isSome)

/-! ### Association-list store lemmas -/

theorem find?_filter_ne (k k' : String) (h : ¬(k = k')) :
    ∀ l : List (String × String),
      (l.filter (fun e => !(e.1 == k))).find? (fun e => e.1 == k') =
        l.find? (fun e => e.1 == k')
  | [] => rfl
  | a :: t => by
    by_cases ha : a.1 = k
    · have hk : (a.1 == k) = true := by simp [ha]
      have hk' : (a.1 == k') = false := by simp [ha, h]
      simp [List.filter_cons, hk, hk', List.find?_cons, find?_filter_ne k k' h t]
    · have hk : (a.1 == k) = false := by simp [ha]
      by_cases hb : a.1 = k'
      · have hk' : (a.1 == k') = true := by simp [hb]
        simp [List.filter_cons, hk, hk', List.find?_cons]
      · have hk' : (a.1 == k') = false := by simp [hb]
        simp [List.filter_cons, hk, hk', List.find?_cons, find?_filter_ne k k' h t]

theorem find?_filter_self (k : String) :
    ∀ l : List (String × String),
      (l.filter (fun e => !(e.1 == k))).find? (fun e => e.1 == k) = none
  | [] => rfl
  | a :: t => by
    by_cases ha : a.1 = k
    · have hk : (a.1 == k) = true := by simp [ha]
      simp [List.filter_cons, hk, find?_filter_self k t]
    · have hk : (a.1 == k) = false := by simp [ha]
      simp [List.filter_cons, hk, List.find?_cons, find?_filter_self k t]

theorem Store.get_set_self (s : Store) (k v : String) :
    (s.set k v).get k = some v := by
  simp [Store.get, Store.set, List.find?_cons]

theorem Store.get_set_ne (s : Store) (k k' v : String) (h : ¬(k = k')) :
    (s.set k v).get k' = s.get k' := by
  have hk : (k == k') = false := by simp [h]
  simp [Store.get, Store.set, List.find?_cons, hk, find?_filter_ne k k' h]

theorem Store.get_del_self (s : Store) (k : String) :
    (s.del k).get k = none := by
  simp [Store.get, Store.del, find?_filter_self k]

theorem Store.get_del_ne (s : Store) (k k' : String) (h : ¬(k = k')) :
    (s.del k).get k' = s.get k' := by
  simp [Store.get, Store.del, find?_filter_ne k k' h]

theorem clearAuth_ok (w : World) :
    clearAuth true true w =
      ⟨Store.del (Store.del w.store "auth_token") "user_data", initialAuthState⟩ := rfl

theorem clearAuth_store_cleared (w : World) :
    Store.get (clearAuth true true w).store "auth_token" = none ∧
      Store.get (clearAuth true true w).store "user_data" = none := by
  constructor
  · show Store.get (Store.del (Store.del w.store "auth_token") "user_data") "auth_token" = none
    rw [Store.get_del_ne _ _ _ (by decide), Store.get_del_self]
  · show Store.get (Store.del (Store.del w.store "auth_token") "user_data") "user_data" = none
    rw [Store.get_del_self]

theorem clearAuth_auth (dt du : Bool) (w : World) :
    (clearAuth dt du w).auth = initialAuthState := rfl

/-! ### C1 — login failure behaviour -/

/-- C1 (counterexample): with a success envelope whose `user_data` write
throws after the `auth_token` write succeeded, an error is thrown during the
call and `login` returns false with the auth state unchanged, yet a
credential-store entry has been written — refuting the claim that no store
entry is written whenever any error is thrown during the call. -/
theorem login_partial_write_cex :
    loginThrew ⟨NetResult.ok ⟨true, some ⟨⟨"u1"⟩, "tok1"⟩, none, none⟩, true, false⟩ = true ∧
    (login ⟨NetResult.ok ⟨true, some ⟨⟨"u1"⟩, "tok1"⟩, none, none⟩, true, false⟩
        ⟨⟨[]⟩, initialAuthState⟩).snd = false ∧
    (login ⟨NetResult.ok ⟨true, some ⟨⟨"u1"⟩, "tok1"⟩, none, none⟩, true, false⟩
        ⟨⟨[]⟩, initialAuthState⟩).fst.auth = initialAuthState ∧
    ¬((login ⟨NetResult.ok ⟨true, some ⟨⟨"u1"⟩, "tok1"⟩, none, none⟩, true, false⟩
        ⟨⟨[]⟩, initialAuthState⟩).fst.store = (⟨[]⟩ : Store)) := by
  decide

/-- C1 (amended): if the `auth.login` envelope is a failure or any error is
thrown during the call, `login` returns false and the in-memory auth state
is exactly what it was before; and whenever the envelope is a failure or the
thrown error is the network call itself rejecting, the credential store is
also untouched.  (Only a store write throwing after the token write can
leave a residue — the single-operation failure window.) -/
theorem login_failure_leaves_state (env : SessionOpEnv) (w : World)
    (h : envelopeFailed env.netResult = true ∨ loginThrew env = true) :
    (login env w).snd = false ∧ (login env w).fst.auth = w.auth ∧
      ((envelopeFailed env.netResult = true ∨ env.netResult = NetResult.err) →
        (login env w).fst.store = w.store) := by
  cases hn : env.netResult with
  | err => simp [login, hn]
  | ok r =>
    cases hs : r.success with
    | false => simp [login, hn, hs]
    | true =>
      cases hd : r.data with
      | none => simp [login, hn, hs, hd]
      | some d =>
        have hef : envelopeFailed env.netResult = false := by
          simp [envelopeFailed, hn, hs, hd]
        have ht : loginThrew env = true := by
          rcases h with h | h
          · rw [hef] at h; exact absurd h (by simp)
          · exact h
        cases hstk : env.setTokenOk with
        | false => simp [login, hn, hs, hd, hstk, hef]
        | true =>
          cases hstu : env.setUserOk with
          | false =>
            refine ⟨?_, ?_, ?_⟩
            · simp [login, hn, hs, hd, hstk, hstu]
            · simp [login, hn, hs, hd, hstk, hstu]
            · intro hc
              rcases hc with hc | hc
              · simp [envelopeFailed, hs, hd] at hc
              · exact absurd hc (by simp)
          | true =>
            exfalso
            simp [loginThrew, hn, hs, hd, hstk, hstu] at ht

/-- C1 witness: a rejected network call leaves the empty world untouched. -/
theorem login_failure_leaves_state_witness :
    (login ⟨NetResult.err, true, true⟩ ⟨⟨[]⟩, initialAuthState⟩).snd = false ∧
    (login ⟨NetResult.err, true, true⟩ ⟨⟨[]⟩, initialAuthState⟩).fst.auth = initialAuthState ∧
    (login ⟨NetResult.err, true, true⟩ ⟨⟨[]⟩, initialAuthState⟩).fst.store = (⟨[]⟩ : Store) := by
  have h := login_failure_leaves_state ⟨NetResult.err, true, true⟩ ⟨⟨[]⟩, initialAuthState⟩
    (Or.inr (by decide))
  exact ⟨h.1, h.2.1, h.2.2 (Or.inr rfl)⟩

/-! ### C2 — login success behaviour -/

/-- C2: when `auth.login` resolves with `success: true` and data carrying a
user and a token (and the two store writes go through), `login` persists the
token under `auth_token` and the stringified user under `user_data`, sets
the in-memory state to Authenticated with that user and token, and returns
true. -/
theorem login_success (env : SessionOpEnv) (w : World) (r : Envelope LoginData) (d : LoginData)
    (hn : env.netResult = NetResult.ok r) (hs : r.success = true) (hd : r.data = some d)
    (h1 : env.setTokenOk = true) (h2 : env.setUserOk = true) :
    (login env w).snd = true ∧
    (login env w).fst.auth = ⟨some d.user, some d.token, true⟩ ∧
    Store.get (login env w).fst.store "auth_token" = some d.token ∧
    Store.get (login env w).fst.store "user_data" = some (stringifyUser d.user) := by
  have hl : login env w =
      (⟨Store.set (Store.set w.store "auth_token" d.token) "user_data" (stringifyUser d.user),
        ⟨some d.user, some d.token, true⟩⟩, true) := by
    simp [login, hn, hs, hd, h1, h2]
  rw [hl]
  refine ⟨rfl, rfl, ?_, ?_⟩
  · rw [Store.get_set_ne _ _ _ _ (by decide), Store.get_set_self]
  · rw [Store.get_set_self]

/-- C2 witness: a concrete successful login from the empty world. -/
theorem login_success_witness :
    (login ⟨NetResult.ok ⟨true, some ⟨⟨"u"⟩, "tok"⟩, none, none⟩, true, true⟩
        ⟨⟨[]⟩, initialAuthState⟩).snd = true ∧
    (login ⟨NetResult.ok ⟨true, some ⟨⟨"u"⟩, "tok"⟩, none, none⟩, true, true⟩
        ⟨⟨[]⟩, initialAuthState⟩).fst.auth = ⟨some ⟨"u"⟩, some "tok", true⟩ ∧
    Store.get (login ⟨NetResult.ok ⟨true, some ⟨⟨"u"⟩, "tok"⟩, none, none⟩, true, true⟩
        ⟨⟨[]⟩, initialAuthState⟩).fst.store "auth_token" = some "tok" ∧
    Store.get (login ⟨NetResult.ok ⟨true, some ⟨⟨"u"⟩, "tok"⟩, none, none⟩, true, true⟩
        ⟨⟨[]⟩, initialAuthState⟩).fst.store "user_data" = some (stringifyUser ⟨"u"⟩) :=
  login_success ⟨NetResult.ok ⟨true, some ⟨⟨"u"⟩, "tok"⟩, none, none⟩, true, true⟩
    ⟨⟨[]⟩, initialAuthState⟩ ⟨true, some ⟨⟨"u"⟩, "tok"⟩, none, none⟩ ⟨⟨"u"⟩, "tok"⟩
    rfl rfl rfl rfl rfl

/-! ### C3 — logout always clears -/

/-- C3: whatever the outcome of the `auth.logout` network call (resolved or
rejected), `logout` ends with the in-memory state Unauthenticated and both
credential-store entries deleted (given the two store deletes themselves go
through). -/
theorem logout_always_clears (env : LogoutEnv) (w : World)
    (h1 : env.delTokenOk = true) (h2 : env.delUserOk = true) :
    (logout env w).auth = initialAuthState ∧
    Store.get (logout env w).store "auth_token" = none ∧
    Store.get (logout env w).store "user_data" = none := by
  have hl : logout env w = clearAuth true true w := by
    simp [logout, h1, h2]
  rw [hl]
  exact ⟨clearAuth_auth true true w,
    (clearAuth_store_cleared w).1, (clearAuth_store_cleared w).2⟩

/-- C3 witness: logout with a rejected network call, from an authenticated
world with both entries present. -/
theorem logout_always_clears_witness :
    (logout ⟨false, true, true⟩
        ⟨⟨[("auth_token", "t"), ("user_data", "u")]⟩, ⟨some ⟨"u"⟩, some "t", true⟩⟩).auth =
      initialAuthState ∧
    Store.get (logout ⟨false, true, true⟩
        ⟨⟨[("auth_token", "t"), ("user_data", "u")]⟩, ⟨some ⟨"u"⟩, some "t", true⟩⟩).store
      "auth_token" = none ∧
    Store.get (logout ⟨false, true, true⟩
        ⟨⟨[("auth_token", "t"), ("user_data", "u")]⟩, ⟨some ⟨"u"⟩, some "t", true⟩⟩).store
      "user_data" = none :=
  logout_always_clears ⟨false, true, true⟩
    ⟨⟨[("auth_token", "t"), ("user_data", "u")]⟩, ⟨some ⟨"u"⟩, some "t", true⟩⟩ rfl rfl

/-! ### C4 — hydration with failing validation -/

/-- C4: when both store entries are present (truthy), the reads and the
parse go through, but the `getCurrentUser` validation fails (rejected call,
envelope failure or data absent), hydration ends Unauthenticated with both
store entries deleted (given the two deletes go through). -/
theorem hydrate_validation_failure_clears (env : HydrateEnv) (w : World) (t u : String)
    (htv : Store.get w.store "auth_token" = some t) (ht0 : ¬(t = ""))
    (huv : Store.get w.store "user_data" = some u) (hu0 : ¬(u = ""))
    (hr1 : env.readTokenOk = true) (hr2 : env.readUserOk = true) (hp : env.parseOk = true)
    (hv : validationFails env.netResult = true)
    (hd1 : env.delTokenOk = true) (hd2 : env.delUserOk = true) :
    (loadStoredAuth env w).fst.auth = initialAuthState ∧
    Store.get (loadStoredAuth env w).fst.store "auth_token" = none ∧
    Store.get (loadStoredAuth env w).fst.store "user_data" = none := by
  have hge : loadStoredAuth env w = (clearAuth env.delTokenOk env.delUserOk w, 1) := by
    cases hn : env.netResult with
    | err => simp [loadStoredAuth, hr1, hr2, hp, htv, huv, hn, truthy, ht0, hu0]
    | ok r =>
      cases hsu : r.success with
      | false => simp [loadStoredAuth, hr1, hr2, hp, htv, huv, hn, hsu, truthy, ht0, hu0]
      | true =>
        cases hdd : r.data with
        | none => simp [loadStoredAuth, hr1, hr2, hp, htv, huv, hn, hsu, hdd, truthy, ht0, hu0]
        | some uu => exfalso; simp [validationFails, hn, hsu, hdd] at hv
  rw [hd1, hd2] at hge
  rw [hge]
  exact ⟨clearAuth_auth true true w,
    (clearAuth_store_cleared w).1, (clearAuth_store_cleared w).2⟩

/-- C4 witness: both entries present, server answers a failure envelope. -/
theorem hydrate_validation_failure_clears_witness :
    (loadStoredAuth ⟨true, true, true, NetResult.ok ⟨false, none, none, some "401"⟩, true, true⟩
        ⟨⟨[("auth_token", "t"), ("user_data", "u")]⟩, initialAuthState⟩).fst.auth =
      initialAuthState ∧
    Store.get (loadStoredAuth
        ⟨true, true, true, NetResult.ok ⟨false, none, none, some "401"⟩, true, true⟩
        ⟨⟨[("auth_token", "t"), ("user_data", "u")]⟩, initialAuthState⟩).fst.store
      "auth_token" = none ∧
    Store.get (loadStoredAuth
        ⟨true, true, true, NetResult.ok ⟨false, none, none, some "401"⟩, true, true⟩
        ⟨⟨[("auth_token", "t"), ("user_data", "u")]⟩, initialAuthState⟩).fst.store
      "user_data" = none :=
  hydrate_validation_failure_clears
    ⟨true, true, true, NetResult.ok ⟨false, none, none, some "401"⟩, true, true⟩
    ⟨⟨[("auth_token", "t"), ("user_data", "u")]⟩, initialAuthState⟩ "t" "u"
    (by decide) (by decide) (by decide) (by decide) rfl rfl rfl rfl rfl rfl

/-! ### C5 — hydration with a missing entry -/

/-- C5: starting from the initial (Unauthenticated) in-memory state, if at
least one of the two store entries is absent, hydration ends Unauthenticated
and performs zero network calls — whatever the rest of the environment
does. -/
theorem hydrate_missing_entry_no_network (env : HydrateEnv) (w : World)
    (ha : w.auth = initialAuthState)
    (hm : Store.get w.store "auth_token" = none ∨ Store.get w.store "user_data" = none) :
    (loadStoredAuth env w).fst.auth = initialAuthState ∧ (loadStoredAuth env w).snd = 0 := by
  cases hr1 : env.readTokenOk with
  | false => simp [loadStoredAuth, hr1, clearAuth_auth]
  | true =>
    cases hr2 : env.readUserOk with
    | false => simp [loadStoredAuth, hr1, hr2, clearAuth_auth]
    | true =>
      have hfalse :
          (truthy (Store.get w.store "auth_token") &&
            truthy (Store.get w.store "user_data")) = false := by
        rcases hm with hm | hm <;> simp [hm, truthy]
      simp [loadStoredAuth, hr1, hr2, hfalse, ha]

/-- C5 witness: token present but user entry absent; no network call. -/
theorem hydrate_missing_entry_no_network_witness :
    (loadStoredAuth ⟨true, true, true, NetResult.err, true, true⟩
        ⟨⟨[("auth_token", "t")]⟩, initialAuthState⟩).fst.auth = initialAuthState ∧
    (loadStoredAuth ⟨true, true, true, NetResult.err, true, true⟩
        ⟨⟨[("auth_token", "t")]⟩, initialAuthState⟩).snd = 0 :=
  hydrate_missing_entry_no_network ⟨true, true, true, NetResult.err, true, true⟩
    ⟨⟨[("auth_token", "t")]⟩, initialAuthState⟩ rfl (Or.inr (by decide))

/-! ### C6 — auth header construction -/

/-- C6 (counterexample): an `auth_token` entry holding the empty string
exists in the store, yet `getAuthHeaders` emits no Authorization header —
JavaScript truthiness drops the empty string — refuting the claimed
"if and only if a token exists". -/
theorem auth_headers_empty_token_cex :
    Store.get ⟨[("auth_token", "")]⟩ "auth_token" = some "" ∧
    getAuthHeaders ⟨[("auth_token", "")]⟩ = [("Content-Type", "application/json")] := by
  decide

/-- C6 (amended): the headers always include the JSON content-type header,
include `Authorization: Bearer <token>` exactly when a NON-EMPTY token is
stored under `auth_token`, and are exactly the content-type header alone
when the token entry is absent or empty. -/
theorem auth_headers_spec (s : Store) :
    ("Content-Type", "application/json") ∈ getAuthHeaders s ∧
    (∀ t, Store.get s "auth_token" = some t → ¬(t = "") →
      getAuthHeaders s =
        [("Content-Type", "application/json"), ("Authorization", "Bearer " ++ t)]) ∧
    ((Store.get s "auth_token" = none ∨ Store.get s "auth_token" = some "") →
      getAuthHeaders s = [("Content-Type", "application/json")]) := by
  refine ⟨?_, ?_, ?_⟩
  · cases h : truthy (Store.get s "auth_token") <;> simp [getAuthHeaders, h]
  · intro t hgt ht0
    simp [getAuthHeaders, hgt, truthy, ht0]
  · intro h
    rcases h with h | h <;> simp [getAuthHeaders, h, truthy]

/-- C6 witness: a non-empty stored token produces the bearer header. -/
theorem auth_headers_spec_witness :
    getAuthHeaders ⟨[("auth_token", "tok")]⟩ =
      [("Content-Type", "application/json"), ("Authorization", "Bearer tok")] :=
  ((auth_headers_spec ⟨[("auth_token", "tok")]⟩).2.1 "tok" (by decide) (by decide)).trans
    (by decide)

/-! ### C7 — non-JSON responses -/

/-- C7: on a response whose declared content type is not JSON, a non-2xx
status rejects with a Request error carrying the numeric status code and the
result never depends on the body (no JSON parsing), while a 2xx status
resolves with the synthetic `success: true, data: null` envelope. -/
theorem handle_non_json (α : Type) (r : HttpResponse α)
    (hct : isJsonContentType r.contentType = false) :
    (respOk r = false →
      handleResponse r =
        HandleResult.rejected ("Request failed with status " ++ toString r.status) ∧
      ∀ b, handleResponse (⟨r.contentType, r.status, b⟩ : HttpResponse α) = handleResponse r) ∧
    (respOk r = true → handleResponse r = HandleResult.resolved ⟨true, none, none, none⟩) := by
  constructor
  · intro hok
    constructor
    · simp [handleResponse, hct, hok]
    · intro b
      simp [handleResponse, respOk, hct]
  · intro hok
    simp [handleResponse, hct, hok]

/-- C7 witness: an HTML 500 error page rejects with the status code in the
message, not with a parse error. -/
theorem handle_non_json_witness :
    handleResponse (⟨some "text/html", 500, none⟩ : HttpResponse String) =
      HandleResult.rejected "Request failed with status 500" := by
  have h :=
    ((handle_non_json String ⟨some "text/html", 500, none⟩ (by decide)).1 (by decide)).1
  exact h.trans (by decide)

/-! ### C10 — JSON responses pass the envelope through -/

/-- C10: on a JSON response with a 2xx status and a parseable body, the
client resolves with the parsed envelope unmodified — its `success` flag is
never inspected — and a JSON response can reject only because of a non-2xx
status or a body that fails to parse. -/
theorem handle_json_pass_through (α : Type) :
    (∀ (r : HttpResponse α) (d : Envelope α),
      isJsonContentType r.contentType = true → respOk r = true → r.jsonBody = some d →
        handleResponse r = HandleResult.resolved d) ∧
    (∀ (r : HttpResponse α) (m : String),
      isJsonContentType r.contentType = true →
        handleResponse r = HandleResult.rejected m →
          respOk r = false ∨ r.jsonBody = none) := by
  constructor
  · intro r d hct hok hb
    simp [handleResponse, hct, hok, hb]
  · intro r m hct hr
    by_cases hok : respOk r = true
    · cases hb : r.jsonBody with
      | none => exact Or.inr rfl
      | some d =>
        exfalso
        rw [show handleResponse r = HandleResult.resolved d by
          simp [handleResponse, hct, hok, hb]] at hr
        exact absurd hr (by simp)
    · exact Or.inl (by simpa using hok)

/-- C10 witness: a 200 JSON response whose envelope has `success: false` is
resolved, unmodified. -/
theorem handle_json_pass_through_witness :
    handleResponse (⟨some "application/json", 200, some ⟨false, none, none, some "bad"⟩⟩ :
        HttpResponse String) =
      HandleResult.resolved ⟨false, none, none, some "bad"⟩ :=
  (handle_json_pass_through String).1
    ⟨some "application/json", 200, some ⟨false, none, none, some "bad"⟩⟩
    ⟨false, none, none, some "bad"⟩ (by decide) (by decide) rfl

/-! ### C8 — GET URL construction -/

theorem foldl_append_eq (ps acc : List (String × String)) :
    ps.foldl (fun a p => a ++ [p]) acc = acc ++ ps := by
  induction ps generalizing acc with
  | nil => simp [List.foldl]
  | cons p t ih => simp [List.foldl, ih]

theorem appendParams_eq (ps : List (String × String)) : appendParams ps = ps := by
  simpa using foldl_append_eq ps []

/-- C8: the requested URL is the configured base endpoint concatenated with
the path, followed by the supplied query parameters rendered in exactly the
order supplied; in particular `get` on `/patients` with `search=doe`
requests `<base>/patients?search=doe`. -/
theorem get_url_params_in_order :
    (∀ (baseURL endpoint : String) (params : List (String × String)),
      buildGetUrl baseURL endpoint params = baseURL ++ endpoint ++ renderQuery params) ∧
    (∀ baseURL : String,
      buildGetUrl baseURL "/patients" [("search", "doe")] =
        baseURL ++ "/patients?search=doe") := by
  have hmain : ∀ (b e : String) (ps : List (String × String)),
      buildGetUrl b e ps = b ++ e ++ renderQuery ps := by
    intro b e ps
    rw [buildGetUrl, appendParams_eq]
  refine ⟨hmain, ?_⟩
  intro b
  rw [hmain, String.append_assoc]
  congr 1

/-! ### C9 — the two entries stay in sync -/

theorem storeInSync_set_both (s : Store) (t u : String) :
    storeInSync (Store.set (Store.set s "auth_token" t) "user_data" u) = true := by
  unfold storeInSync
  rw [Store.get_set_self, Store.get_set_ne _ _ _ _ (by decide), Store.get_set_self]
  rfl

theorem storeInSync_clearAuth (w : World) :
    storeInSync (clearAuth true true w).store = true := by
  unfold storeInSync
  rw [(clearAuth_store_cleared w).1, (clearAuth_store_cleared w).2]
  rfl

theorem register_eq_login : register = login := rfl

theorem login_store_sync (env : SessionOpEnv) (w : World)
    (h1 : env.setTokenOk = true) (h2 : env.setUserOk = true)
    (hw : storeInSync w.store = true) :
    storeInSync (login env w).fst.store = true := by
  cases hn : env.netResult with
  | err => simpa [login, hn] using hw
  | ok r =>
    cases hsu : r.success with
    | false => simpa [login, hn, hsu] using hw
    | true =>
      cases hd : r.data with
      | none => simpa [login, hn, hsu, hd] using hw
      | some d =>
        have hst : (login env w).fst.store =
            Store.set (Store.set w.store "auth_token" d.token) "user_data"
              (stringifyUser d.user) := by
          simp [login, hn, hsu, hd, h1, h2]
        rw [hst]
        exact storeInSync_set_both w.store d.token (stringifyUser d.user)

/-- C9: from a store whose two credential entries are both present or both
absent, every completed session-manager operation whose own store writes and
deletes go through — login, register, logout, hydrate — ends with the two
entries again both present or both absent. -/
theorem credential_entries_in_sync (envL envR : SessionOpEnv) (envO : LogoutEnv)
    (envH : HydrateEnv) (w : World)
    (hw : storeInSync w.store = true)
    (hL1 : envL.setTokenOk = true) (hL2 : envL.setUserOk = true)
    (hR1 : envR.setTokenOk = true) (hR2 : envR.setUserOk = true)
    (hO1 : envO.delTokenOk = true) (hO2 : envO.delUserOk = true)
    (hH1 : envH.delTokenOk = true) (hH2 : envH.delUserOk = true) :
    storeInSync (login envL w).fst.store = true ∧
    storeInSync (register envR w).fst.store = true ∧
    storeInSync (logout envO w).store = true ∧
    storeInSync (loadStoredAuth envH w).fst.store = true := by
  refine ⟨login_store_sync envL w hL1 hL2 hw, ?_, ?_, ?_⟩
  · rw [register_eq_login]
    exact login_store_sync envR w hR1 hR2 hw
  · have hl : logout envO w = clearAuth true true w := by simp [logout, hO1, hO2]
    rw [hl]
    exact storeInSync_clearAuth w
  · have hclear : (clearAuth envH.delTokenOk envH.delUserOk w, (1 : Nat)).fst =
        clearAuth true true w := by rw [hH1, hH2]
    cases hr1 : envH.readTokenOk with
    | false =>
      have hst : (loadStoredAuth envH w).fst = clearAuth true true w := by
        simp [loadStoredAuth, hr1, hH1, hH2]
      rw [hst]; exact storeInSync_clearAuth w
    | true =>
      cases hr2 : envH.readUserOk with
      | false =>
        have hst : (loadStoredAuth envH w).fst = clearAuth true true w := by
          simp [loadStoredAuth, hr1, hr2, hH1, hH2]
        rw [hst]; exact storeInSync_clearAuth w
      | true =>
        by_cases htr : (truthy (Store.get w.store "auth_token") &&
            truthy (Store.get w.store "user_data")) = true
        · cases hp : envH.parseOk with
          | false =>
            have hst : (loadStoredAuth envH w).fst = clearAuth true true w := by
              simp [loadStoredAuth, hr1, hr2, htr, hp, hH1, hH2]
            rw [hst]; exact storeInSync_clearAuth w
          | true =>
            cases hn : envH.netResult with
            | err =>
              have hst : (loadStoredAuth envH w).fst = clearAuth true true w := by
                simp [loadStoredAuth, hr1, hr2, htr, hp, hn, hH1, hH2]
              rw [hst]; exact storeInSync_clearAuth w
            | ok r =>
              cases hsu : r.success with
              | false =>
                have hst : (loadStoredAuth envH w).fst = clearAuth true true w := by
                  simp [loadStoredAuth, hr1, hr2, htr, hp, hn, hsu, hH1, hH2]
                rw [hst]; exact storeInSync_clearAuth w
              | true =>
                cases hd : r.data with
                | none =>
                  have hst : (loadStoredAuth envH w).fst = clearAuth true true w := by
                    simp [loadStoredAuth, hr1, hr2, htr, hp, hn, hsu, hd, hH1, hH2]
                  rw [hst]; exact storeInSync_clearAuth w
                | some uu =>
                  have hst : (loadStoredAuth envH w).fst.store = w.store := by
                    simp [loadStoredAuth, hr1, hr2, htr, hp, hn, hsu, hd]
                  rw [hst]; exact hw
        · have hf : (truthy (Store.get w.store "auth_token") &&
              truthy (Store.get w.store "user_data")) = false := by
            simpa using htr
          have hst : (loadStoredAuth envH w).fst.store = w.store := by
            simp [loadStoredAuth, hr1, hr2, hf]
          rw [hst]; exact hw

/-- C9 witness: a concrete run of all four operations from an initially
empty (hence in-sync) world. -/
theorem credential_entries_in_sync_witness :
    storeInSync (login ⟨NetResult.err, true, true⟩ ⟨⟨[]⟩, initialAuthState⟩).fst.store = true ∧
    storeInSync (register ⟨NetResult.err, true, true⟩ ⟨⟨[]⟩, initialAuthState⟩).fst.store = true ∧
    storeInSync (logout ⟨true, true, true⟩ ⟨⟨[]⟩, initialAuthState⟩).store = true ∧
    storeInSync (loadStoredAuth ⟨true, true, true, NetResult.err, true, true⟩
      ⟨⟨[]⟩, initialAuthState⟩).fst.store = true :=
  credential_entries_in_sync ⟨NetResult.err, true, true⟩ ⟨NetResult.err, true, true⟩
    ⟨true, true, true⟩ ⟨true, true, true, NetResult.err, true, true⟩
    ⟨⟨[]⟩, initialAuthState⟩ (by decide) rfl rfl rfl rfl rfl rfl rfl rfl
